import Mathlib

/-!
Shallow embedding of the `rfb` RFB/VNC server core (files `src/rfb.rs` and
`src/server.rs`) and proofs about its handshake, wire codec and session logic.

Streams are modelled as a `Conn`: the list of bytes still available to read
and the list of bytes written so far.  Fallible stream operations live in a
monad `M` whose outcomes distinguish a returned error (Rust `Err`) from a
panic (Rust `unimplemented!`).  Pure serialization (`write_to` methods that
only emit bytes) is modelled as functions returning the emitted byte list.
-/

namespace Rfb

/-- A duplex connection: bytes available to read and bytes written so far.
Embeds the `TcpStream` as seen by the server code. -/
structure Conn where
  input : List Nat
  output : List Nat
deriving DecidableEq, Repr

/-- Outcome of a fallible operation: a value with the updated connection,
a returned error (Rust `Err` propagated with the question-mark operator),
or a panic (Rust `unimplemented!`). -/
inductive Res (α : Type) where
  | ok : α → Conn → Res α
  | err : String → Conn → Res α
  | panic : String → Conn → Res α
deriving DecidableEq, Repr

/-- True exactly when the outcome is a returned error value. -/
def Res.isErr {α : Type} : Res α → Bool
  | .err _ _ => true
  | _ => false

/-- Stateful fallible computations over a connection. -/
def M (α : Type) : Type := Conn → Res α

instance : Monad M where
  pure a := fun c => .ok a c
  bind m f := fun c =>
    match m c with
    | .ok a c' => f a c'
    | .err e c' => .err e c'
    | .panic e c' => .panic e c'

/-- Read one byte (tokio `read_u8`); IO error at end of stream. -/
def read_u8 : M Nat := fun c =>
  match c.input with
  | [] => .err "unexpected end of file" c
  | b :: rest => .ok b ⟨rest, c.output⟩

/-- Read exactly `n` bytes (`read_exact`); IO error if fewer are available. -/
def read_exact : Nat → M (List Nat)
  | 0 => pure []
  | n + 1 => do
      let b ← read_u8
      let rest ← read_exact n
      pure (b :: rest)

/-- Read a big-endian 2-byte unsigned integer (tokio `read_u16`). -/
def read_u16 : M Nat := do
  let a ← read_u8
  let b ← read_u8
  pure (a * 256 + b)

/-- Read a big-endian 4-byte unsigned integer (tokio `read_u32`). -/
def read_u32 : M Nat := do
  let a ← read_u16
  let b ← read_u16
  pure (a * 65536 + b)

/-- Read a big-endian 4-byte signed integer (tokio `read_i32`),
two's complement. -/
def read_i32 : M Int := do
  let n ← read_u32
  pure (if n < 2147483648 then (n : Int) else (n : Int) - 4294967296)

/-- Append bytes to the written output (a sequence of stream writes). -/
def emit (bs : List Nat) : M Unit := fun c => .ok () ⟨c.input, c.output ++ bs⟩

/-- Return an error to the caller (anyhow `Err` via `bail!`/`anyhow!`). -/
def errf {α : Type} (msg : String) : M α := fun c => .err msg c

/-- Abort with a panic (Rust `unimplemented!`). -/
def panicf {α : Type} (msg : String) : M α := fun c => .panic msg c

/-- Bytes emitted by tokio `write_u8` (argument has type `u8`). -/
def u8be (n : Nat) : List Nat := [n % 256]

/-- Bytes emitted by tokio `write_u16`: big-endian 2-byte split. -/
def be16 (n : Nat) : List Nat := [n / 256 % 256, n % 256]

/-- Bytes emitted by tokio `write_u32`: big-endian 4-byte split. -/
def be32 (n : Nat) : List Nat :=
  [n / 16777216 % 256, n / 65536 % 256, n / 256 % 256, n % 256]

/-- Bytes emitted by tokio `write_i32`: two's-complement big-endian. -/
def i32be (i : Int) : List Nat := be32 (i % 4294967296).toNat

/-- ASCII byte list of a pure-ASCII string as written with `write_all`. -/
def asciiBytes (s : String) : List Nat := s.data.map (fun ch => ch.toNat)

/-- The `ProtoVersion` enum (`src/rfb.rs`). -/
inductive ProtoVersion where
  | Rfb33
  | Rfb37
  | Rfb38
deriving DecidableEq, Repr, Fintype

/-- Discriminant order of the `ProtoVersion` enum; Rust
`#[derive(PartialOrd)]` on a fieldless enum compares declaration order. -/
def ProtoVersion.ord : ProtoVersion → Nat
  | .Rfb33 => 0
  | .Rfb37 => 1
  | .Rfb38 => 2

/-- The strict order produced by the derived `PartialOrd`. -/
def ProtoVersion.lt (a b : ProtoVersion) : Bool := a.ord < b.ord

/-- Rust `Debug` rendering of a `ProtoVersion`, used in error messages. -/
def ProtoVersion.debugStr : ProtoVersion → String
  | .Rfb33 => "Rfb33"
  | .Rfb37 => "Rfb37"
  | .Rfb38 => "Rfb38"

/-- The 12 ASCII bytes of each version string: `RFB 003.003\n`,
`RFB 003.007\n`, `RFB 003.008\n`. -/
def ProtoVersion.bytes : ProtoVersion → List Nat
  | .Rfb33 => [82, 70, 66, 32, 48, 48, 51, 46, 48, 48, 51, 10]
  | .Rfb37 => [82, 70, 66, 32, 48, 48, 51, 46, 48, 48, 55, 10]
  | .Rfb38 => [82, 70, 66, 32, 48, 48, 51, 46, 48, 48, 56, 10]

/-- ProtoVersion::read_from: read 12 bytes and match against the three
version strings; anything else is an invalid-protocol-version error. -/
def ProtoVersion.read_from : M ProtoVersion := do
  let buf ← read_exact 12
  if buf = ProtoVersion.bytes .Rfb33 then pure .Rfb33
  else if buf = ProtoVersion.bytes .Rfb37 then pure .Rfb37
  else if buf = ProtoVersion.bytes .Rfb38 then pure .Rfb38
  else errf "invalid protocol version"

/-- The `SecurityType` enum (`src/rfb.rs`). -/
inductive SecurityType where
  | None
  | VncAuthentication
deriving DecidableEq, Repr, Fintype

/-- Rust `Debug` rendering of a `SecurityType`, used in error messages. -/
def SecurityType.debugStr : SecurityType → String
  | .None => "None"
  | .VncAuthentication => "VncAuthentication"

/-- SecurityType::read_from: byte 1 is None, byte 2 is VncAuthentication,
anything else is an invalid-security-type error. -/
def SecurityType.read_from : M SecurityType := do
  let t ← read_u8
  match t with
  | 1 => pure SecurityType.None
  | 2 => pure SecurityType.VncAuthentication
  | v => errf ("invalid security type=" ++ toString v)

/-- SecurityType::write_to: the byte written for each variant
(`None` writes 0, `VncAuthentication` writes 1 in the source). -/
def SecurityType.write_to : SecurityType → List Nat
  | .None => u8be 0
  | .VncAuthentication => u8be 1

/-- SecurityTypes::write_to: a 1-byte count (`len as u8`) followed by the
byte of each offered type. -/
def SecurityTypes.write_to (ts : List SecurityType) : List Nat :=
  u8be ts.length ++ (ts.map SecurityType.write_to).flatten

/-- The `SecurityResult` enum (`src/rfb.rs`). -/
inductive SecurityResult where
  | Success
  | Failure (reason : String)
deriving DecidableEq, Repr

/-- SecurityResult::write_to: 4-byte result code 0 on success; code 1 then
the raw reason bytes on failure. -/
def SecurityResult.write_to : SecurityResult → List Nat
  | .Success => be32 0
  | .Failure s => be32 1 ++ asciiBytes s

/-- Server::rfb_handshake (`src/server.rs`): write the server version, read
and compare the client version, then run security negotiation: write the
offered types, read the client's choice, and answer with a SecurityResult. -/
def rfb_handshake (version : ProtoVersion) (sec_types : List SecurityType) : M Unit := do
  emit version.bytes
  let client_version ← ProtoVersion.read_from
  if ProtoVersion.lt client_version version then
    errf ("unsupported client version=" ++ client_version.debugStr
      ++ " (server version: " ++ version.debugStr ++ ")")
  else do
    emit (SecurityTypes.write_to sec_types)
    let client_choice ← SecurityType.read_from
    if ! sec_types.contains client_choice then do
      emit (SecurityResult.write_to (.Failure "unsupported security type"))
      errf ("invalid security choice=" ++ client_choice.debugStr)
    else
      emit (SecurityResult.write_to .Success)

/-- C1: the bytes actually written by SecurityType::write_to are the enum
ordinals 0 (None) and 1 (VncAuthentication), not the documented wire codes
1 and 2 that SecurityType::read_from expects; feeding the written byte back
to read_from errors for None and yields the wrong variant for
VncAuthentication, refuting the claimed round-trip. -/
theorem C1_security_type_wire_code_mismatch :
    SecurityType.write_to SecurityType.None = [0] ∧
    SecurityType.write_to SecurityType.VncAuthentication = [1] ∧
    SecurityType.read_from ⟨SecurityType.write_to SecurityType.None, []⟩
      = Res.err "invalid security type=0" ⟨[], []⟩ ∧
    SecurityType.read_from ⟨SecurityType.write_to SecurityType.VncAuthentication, []⟩
      = Res.ok SecurityType.None ⟨[], []⟩ ∧
    SecurityType.read_from ⟨[1], []⟩ = Res.ok SecurityType.None ⟨[], []⟩ ∧
    SecurityType.read_from ⟨[2], []⟩ = Res.ok SecurityType.VncAuthentication ⟨[], []⟩ := by
  refine ⟨rfl, rfl, rfl, rfl, rfl, rfl⟩

/-- C2 counterexample: with the server offering [None, VncAuthentication]
and the client's choice byte 9, the handshake fails inside
SecurityType::read_from with an invalid-security-type error; the output
written to the stream ends with the offered-types list [2, 0, 1] and no
SecurityResult::Failure record is ever written, refuting the claim. -/
theorem C2_counterexample_choice_9_no_failure_written :
    rfb_handshake .Rfb38 [SecurityType.None, SecurityType.VncAuthentication]
        ⟨ProtoVersion.bytes .Rfb38 ++ [9], []⟩
      = Res.err "invalid security type=9"
          ⟨[], ProtoVersion.bytes .Rfb38 ++ [2, 0, 1]⟩ := by
  rfl

/-- C2 amended: a client choice byte that is not a valid security-type code
at all (such as 9) makes the handshake fail while decoding the choice, with
no SecurityResult written; the Failure-then-unsupported-security-type path
runs when the byte decodes to a valid SecurityType that is not among the
offered ones (server offers [None], client sends byte 2). -/
theorem C2_amended_failure_path :
    (rfb_handshake .Rfb38 [SecurityType.None, SecurityType.VncAuthentication]
        ⟨ProtoVersion.bytes .Rfb38 ++ [9], []⟩
      = Res.err "invalid security type=9"
          ⟨[], ProtoVersion.bytes .Rfb38 ++ [2, 0, 1]⟩) ∧
    (rfb_handshake .Rfb38 [SecurityType.None]
        ⟨ProtoVersion.bytes .Rfb38 ++ [2], []⟩
      = Res.err "invalid security choice=VncAuthentication"
          ⟨[], ProtoVersion.bytes .Rfb38 ++ [1, 0] ++ be32 1
              ++ asciiBytes "unsupported security type"⟩) := by
  refine ⟨rfl, rfl⟩

/-- C3: ProtoVersion is strictly totally ordered with
Rfb33 < Rfb37 < Rfb38 (irreflexive, transitive, total), and the version
phase of the handshake fails exactly when the parsed client version is
strictly below the server version; otherwise the handshake proceeds to
security negotiation (here: offer [None], client picks byte 1, success). -/
theorem C3_version_order_drives_handshake :
    (ProtoVersion.lt .Rfb33 .Rfb37 = true ∧ ProtoVersion.lt .Rfb37 .Rfb38 = true ∧
      ProtoVersion.lt .Rfb33 .Rfb38 = true) ∧
    (∀ a : ProtoVersion, ProtoVersion.lt a a = false) ∧
    (∀ a b c : ProtoVersion, ProtoVersion.lt a b = true → ProtoVersion.lt b c = true →
      ProtoVersion.lt a c = true) ∧
    (∀ a b : ProtoVersion, a ≠ b → (ProtoVersion.lt a b = true ∨ ProtoVersion.lt b a = true)) ∧
    (∀ sv cv : ProtoVersion,
      (ProtoVersion.lt cv sv = true →
        rfb_handshake sv [SecurityType.None] ⟨cv.bytes ++ [1], []⟩
          = Res.err ("unsupported client version=" ++ cv.debugStr
              ++ " (server version: " ++ sv.debugStr ++ ")") ⟨[1], sv.bytes⟩) ∧
      (ProtoVersion.lt cv sv = false →
        rfb_handshake sv [SecurityType.None] ⟨cv.bytes ++ [1], []⟩
          = Res.ok () ⟨[], sv.bytes ++ [1, 0] ++ be32 0⟩)) := by
  decide

/-- C3 witness: the handshake theorem applied at concrete versions, with
every hypothesis discharged concretely (Rfb33 against server Rfb38 fails;
Rfb38 against server Rfb38 succeeds; transitivity and totality at
concrete points). -/
theorem C3_witness :
    (rfb_handshake .Rfb38 [SecurityType.None] ⟨ProtoVersion.bytes .Rfb33 ++ [1], []⟩
      = Res.err ("unsupported client version=" ++ ProtoVersion.debugStr .Rfb33
          ++ " (server version: " ++ ProtoVersion.debugStr .Rfb38 ++ ")")
          ⟨[1], ProtoVersion.bytes .Rfb38⟩) ∧
    (rfb_handshake .Rfb38 [SecurityType.None] ⟨ProtoVersion.bytes .Rfb38 ++ [1], []⟩
      = Res.ok () ⟨[], ProtoVersion.bytes .Rfb38 ++ [1, 0] ++ be32 0⟩) ∧
    ProtoVersion.lt .Rfb33 .Rfb38 = true ∧
    (ProtoVersion.lt .Rfb33 .Rfb37 = true ∨ ProtoVersion.lt .Rfb37 .Rfb33 = true) := by
  refine ⟨?_, ?_, ?_, ?_⟩
  · exact (C3_version_order_drives_handshake.2.2.2.2 .Rfb38 .Rfb33).1 (by decide)
  · exact (C3_version_order_drives_handshake.2.2.2.2 .Rfb38 .Rfb38).2 (by decide)
  · exact C3_version_order_drives_handshake.2.2.1 .Rfb33 .Rfb37 .Rfb38 (by decide) (by decide)
  · exact C3_version_order_drives_handshake.2.2.2.1 .Rfb33 .Rfb37 (by decide)

/-- Modelled from the spec: the rgb_888 pixel-format constants
(`crate::pixel_formats::rgb_888`, whose file is not under src/).  The spec
fixes bits_per_pixel=32, depth=24, an 8-bit channel maximum of 255, and
byte-aligned shifts (each a multiple of 8). -/
def rgb_888.BITS_PER_PIXEL : Nat := 32

/-- Modelled from the spec: the rgb_888 colour depth, 24 bits. -/
def rgb_888.DEPTH : Nat := 24

/-- Modelled from the spec: the rgb_888 per-channel maximum, 255. -/
def rgb_888.MAX_VALUE : Nat := 255

/-- Modelled from the spec: a shift is valid for rgb_888 when it is
byte-aligned, that is, a multiple of 8. -/
def rgb_888.valid_shift (v : Nat) : Bool := v % 8 == 0

/-- The `ColorFormat` struct (`src/rfb.rs`): channel maxima and shifts. -/
structure ColorFormat where
  red_max : Nat
  green_max : Nat
  blue_max : Nat
  red_shift : Nat
  green_shift : Nat
  blue_shift : Nat
deriving DecidableEq, Repr

/-- The `ColorMap` struct (`src/rfb.rs`): declared but unimplemented. -/
structure ColorMap where
deriving DecidableEq, Repr

/-- The `ColorSpecification` enum (`src/rfb.rs`). -/
inductive ColorSpecification where
  | ColorFormat (cf : ColorFormat)
  | ColorMap (cm : ColorMap)
deriving DecidableEq, Repr

/-- The `PixelFormat` struct (`src/rfb.rs`).  Field values originate from
u8/u16 reads, so they are below 256 and 65536 respectively on all paths. -/
structure PixelFormat where
  bits_per_pixel : Nat
  depth : Nat
  big_endian : Bool
  color_spec : ColorSpecification
deriving DecidableEq, Repr

/-- PixelFormat::is_rgb_888: requires bits_per_pixel and depth to match the
rgb_888 constants, all three maxima to be 255 and all three shifts to be
valid; any ColorMap specification is rejected. -/
def PixelFormat.is_rgb_888 (pf : PixelFormat) : Bool :=
  if pf.bits_per_pixel != rgb_888.BITS_PER_PIXEL || pf.depth != rgb_888.DEPTH then
    false
  else
    match pf.color_spec with
    | .ColorFormat cf =>
        (cf.red_max == rgb_888.MAX_VALUE)
          && (cf.green_max == rgb_888.MAX_VALUE)
          && (cf.blue_max == rgb_888.MAX_VALUE)
          && (rgb_888.valid_shift cf.red_shift)
          && (rgb_888.valid_shift cf.green_shift)
          && (rgb_888.valid_shift cf.blue_shift)
    | .ColorMap _ => false

/-- ColorSpecification::read_from: a true-colour flag byte of 0 selects the
ColorMap variant, which hits Rust `unimplemented!` and panics; any nonzero
flag reads a ColorFormat (three 2-byte maxima, three 1-byte shifts). -/
def ColorSpecification.read_from : M ColorSpecification := do
  let tc_flag ← read_u8
  match tc_flag with
  | 0 => panicf "not implemented"
  | _ => do
      let red_max ← read_u16
      let green_max ← read_u16
      let blue_max ← read_u16
      let red_shift ← read_u8
      let green_shift ← read_u8
      let blue_shift ← read_u8
      pure (ColorSpecification.ColorFormat
        ⟨red_max, green_max, blue_max, red_shift, green_shift, blue_shift⟩)

/-- PixelFormat::read_from: bits_per_pixel, depth, big-endian flag, the
colour specification, then 3 bytes of padding. -/
def PixelFormat.read_from : M PixelFormat := do
  let bits_per_pixel ← read_u8
  let depth ← read_u8
  let be_flag ← read_u8
  let big_endian := match be_flag with
    | 0 => false
    | _ => true
  let color_spec ← ColorSpecification.read_from
  let _padding ← read_exact 3
  pure ⟨bits_per_pixel, depth, big_endian, color_spec⟩

/-- C5 counterexample: a PixelFormat with bits_per_pixel 32, all maxima
255 and byte-aligned shifts, but depth 0.  The claim's condition holds for
it, yet is_rgb_888 returns false because the code additionally requires
depth = 24. -/
theorem C5_counterexample_depth_ignored_by_claim :
    (PixelFormat.is_rgb_888
        ⟨32, 0, false, .ColorFormat ⟨255, 255, 255, 0, 8, 16⟩⟩ = false) ∧
    (32 : Nat) = 32 ∧ (255 : Nat) = 255 ∧
    (0 : Nat) % 8 = 0 ∧ (8 : Nat) % 8 = 0 ∧ (16 : Nat) % 8 = 0 := by
  refine ⟨rfl, rfl, rfl, rfl, rfl, rfl⟩

/-- C5 amended: is_rgb_888 pf is true iff bits_per_pixel = 32, depth = 24,
the colour specification is a ColorFormat whose three maxima are 255 and
whose three shifts are multiples of 8; in particular it is false for every
ColorMap specification. -/
theorem C5_is_rgb_888_characterization :
    ∀ pf : PixelFormat,
      pf.is_rgb_888 = true ↔
        (pf.bits_per_pixel = 32 ∧ pf.depth = 24 ∧
          ∃ cf : ColorFormat, pf.color_spec = .ColorFormat cf ∧
            cf.red_max = 255 ∧ cf.green_max = 255 ∧ cf.blue_max = 255 ∧
            cf.red_shift % 8 = 0 ∧ cf.green_shift % 8 = 0 ∧ cf.blue_shift % 8 = 0) := by
  intro pf
  obtain ⟨bpp, depth, be, cs⟩ := pf
  cases cs with
  | ColorFormat cf =>
      by_cases h1 : bpp = 32
      · by_cases h2 : depth = 24
        · subst h1
          subst h2
          simp [PixelFormat.is_rgb_888, rgb_888.BITS_PER_PIXEL, rgb_888.DEPTH,
            rgb_888.MAX_VALUE, rgb_888.valid_shift, and_assoc]
        · simp [PixelFormat.is_rgb_888, rgb_888.BITS_PER_PIXEL, rgb_888.DEPTH, h2]
      · simp [PixelFormat.is_rgb_888, rgb_888.BITS_PER_PIXEL, rgb_888.DEPTH, h1]
  | ColorMap cm =>
      simp [PixelFormat.is_rgb_888]

/-- C5 witness: the characterization applied at a concrete format — depth
24, bits 32, maxima 255, shifts 0/8/16 — whose is_rgb_888 is true. -/
theorem C5_witness :
    PixelFormat.is_rgb_888 ⟨32, 24, false, .ColorFormat ⟨255, 255, 255, 0, 8, 16⟩⟩ = true :=
  (C5_is_rgb_888_characterization ⟨32, 24, false, .ColorFormat ⟨255, 255, 255, 0, 8, 16⟩⟩).mpr
    ⟨rfl, rfl, ⟨255, 255, 255, 0, 8, 16⟩, rfl, rfl, rfl, rfl, rfl, rfl, rfl⟩

/-- C6 counterexample: reading a ColorSpecification whose true-colour flag
byte is 0 does not return an error value to the caller: it panics through
Rust `unimplemented!`, so the outcome is a panic, not an error. -/
theorem C6_counterexample_colormap_read_panics :
    ColorSpecification.read_from ⟨[0], []⟩ = Res.panic "not implemented" ⟨[], []⟩ ∧
    Res.isErr (ColorSpecification.read_from ⟨[0], []⟩) = false := by
  refine ⟨rfl, rfl⟩

/-- C6 amended: reading a ColorSpecification (and hence a PixelFormat)
whose true-colour flag byte is 0 never produces a ColorSpecification and
never returns an error value: it aborts with the unimplemented panic. -/
theorem C6_amended_colormap_read_always_panics :
    (∀ rest out : List Nat,
      ColorSpecification.read_from ⟨0 :: rest, out⟩
        = Res.panic "not implemented" ⟨rest, out⟩) ∧
    (∀ bpp depth be : Nat, ∀ rest out : List Nat,
      PixelFormat.read_from ⟨bpp :: depth :: be :: 0 :: rest, out⟩
        = Res.panic "not implemented" ⟨rest, out⟩) := by
  refine ⟨?_, ?_⟩
  · intro rest out
    rfl
  · intro bpp depth be rest out
    cases be <;> rfl

/-- Modelled from the spec: the EncodingType wire discriminants
(`crate::encodings`, whose file is not under src/).  Raw is the only
implemented encoding; unrecognized identifiers fail the decode. -/
inductive EncodingType where
  | Raw
deriving DecidableEq, Repr

/-- Modelled from the spec: EncodingType::try_from on the signed 32-bit
wire value; Raw's discriminant is 0, anything else is an error. -/
def EncodingType.try_from (i : Int) : M EncodingType :=
  if i = 0 then pure .Raw
  else errf ("unsupported encoding type=" ++ toString i)

/-- Modelled from the spec: the symbolic key classification
(`crate::keysym`, whose file is not under src/): a finite partial mapping
from 32-bit keysym values, here printable ASCII plus a few control keys. -/
inductive KeySym where
  | Ascii (v : Nat)
  | Backspace
  | Return
  | Escape
  | Shift
  | Control
deriving DecidableEq, Repr

/-- Modelled from the spec: KeySym::try_from, the finite partial mapping
from raw 32-bit keysym values to symbols; values outside the mapping give
no symbol (Rust's TryFrom error). -/
def KeySym.try_from (v : Nat) : Option KeySym :=
  if 32 ≤ v ∧ v ≤ 126 then some (.Ascii v)
  else if v = 65288 then some .Backspace
  else if v = 65293 then some .Return
  else if v = 65307 then some .Escape
  else if v = 65505 then some .Shift
  else if v = 65507 then some .Control
  else none

/-- The `Position` struct (`src/rfb.rs`): two u16 coordinates. -/
structure Position where
  x : Nat
  y : Nat
deriving DecidableEq, Repr

/-- Position::read_from: 2-byte x then 2-byte y. -/
def Position.read_from : M Position := do
  let x ← read_u16
  let y ← read_u16
  pure ⟨x, y⟩

/-- The `Resolution` struct (`src/rfb.rs`): two u16 dimensions. -/
structure Resolution where
  width : Nat
  height : Nat
deriving DecidableEq, Repr

/-- Resolution::read_from: 2-byte width then 2-byte height. -/
def Resolution.read_from : M Resolution := do
  let width ← read_u16
  let height ← read_u16
  pure ⟨width, height⟩

/-- The `FramebufferUpdateRequest` struct (`src/rfb.rs`). -/
structure FramebufferUpdateRequest where
  incremental : Bool
  position : Position
  resolution : Resolution
deriving DecidableEq, Repr

/-- The `KeyEvent` struct (`src/rfb.rs`): the pressed flag, the symbolic
keysym, and the raw 32-bit keysym value read from the wire.  The accessor
methods keysym_raw(), keysym() and is_pressed() return the fields. -/
structure KeyEvent where
  is_pressed : Bool
  keysym : KeySym
  keysym_raw : Nat
deriving DecidableEq, Repr

/-- MouseButtons::from_bits_truncate: the bitflags struct defines bits
0 through 6, so truncation keeps the low 7 bits. -/
def MouseButtons.from_bits_truncate (n : Nat) : Nat := n % 128

/-- The `PointerEvent` struct (`src/rfb.rs`). -/
structure PointerEvent where
  position : Position
  pressed : Nat
deriving DecidableEq, Repr

/-- PointerEvent::read_from: 1-byte button mask (truncated to the defined
bits) then the position. -/
def PointerEvent.read_from : M PointerEvent := do
  let button_mask ← read_u8
  let pressed := MouseButtons.from_bits_truncate button_mask
  let position ← Position.read_from
  pure ⟨position, pressed⟩

/-- Rust `Vec::with_capacity(n)` reserves capacity `n` but the vector's
length is 0: the resulting buffer holds no elements. -/
def vec_with_capacity (_n : Nat) : List Nat := []

/-- Rust `read_exact(&mut buf)` fills exactly `buf.len()` bytes. -/
def read_exact_into (buf : List Nat) : M (List Nat) := read_exact buf.length

/-- Structural validity of a UTF-8 byte sequence, the check done by
String::from_utf8: ASCII bytes stand alone, multi-byte sequences are a
leading byte followed by continuation bytes in 128..191. -/
def utf8_cont (b : Nat) : Bool := 128 ≤ b && b ≤ 191

/-- Validity of a whole byte sequence as UTF-8. -/
def utf8_valid : List Nat → Bool
  | [] => true
  | b :: rest =>
      if b ≤ 127 then utf8_valid rest
      else if 194 ≤ b && b ≤ 223 then
        match rest with
        | c1 :: rest' => utf8_cont c1 && utf8_valid rest'
        | [] => false
      else if 224 ≤ b && b ≤ 239 then
        match rest with
        | c1 :: c2 :: rest' => utf8_cont c1 && utf8_cont c2 && utf8_valid rest'
        | _ => false
      else if 240 ≤ b && b ≤ 244 then
        match rest with
        | c1 :: c2 :: c3 :: rest' =>
            utf8_cont c1 && utf8_cont c2 && utf8_cont c3 && utf8_valid rest'
        | _ => false
      else false

/-- String::from_utf8: succeeds with the decoded text exactly when the
bytes are valid UTF-8 (the text is modelled by its byte list). -/
def string_from_utf8 (bs : List Nat) : M (List Nat) :=
  if utf8_valid bs then pure bs else errf "invalid utf-8 sequence"

/-- The `ClientMessage` enum (`src/rfb.rs`).  The ClientCutText string is
modelled by its UTF-8 byte list. -/
inductive ClientMessage where
  | SetPixelFormat (pf : PixelFormat)
  | SetEncodings (encodings : List EncodingType)
  | FramebufferUpdateRequest (req : FramebufferUpdateRequest)
  | KeyEvent (ke : KeyEvent)
  | PointerEvent (pe : PointerEvent)
  | ClientCutText (text : List Nat)
deriving DecidableEq, Repr

/-- The SetEncodings read loop: `num_encodings` signed 32-bit values, each
converted through EncodingType::try_from, collected in order. -/
def read_encodings : Nat → M (List EncodingType)
  | 0 => pure []
  | n + 1 => do
      let i ← read_i32
      let e ← EncodingType.try_from i
      let rest ← read_encodings n
      pure (e :: rest)

/-- ClientMessage::read_from: a 1-byte type tag then the per-variant body,
with padding exactly as in the source; unknown tags are an error. -/
def ClientMessage.read_from : M ClientMessage := do
  let t ← read_u8
  match t with
  | 0 => do
      let _padding ← read_exact 3
      let pixel_format ← PixelFormat.read_from
      pure (ClientMessage.SetPixelFormat pixel_format)
  | 2 => do
      let _ ← read_u8
      let num_encodings ← read_u16
      let encodings ← read_encodings num_encodings
      pure (ClientMessage.SetEncodings encodings)
  | 3 => do
      let inc_flag ← read_u8
      let incremental := match inc_flag with
        | 0 => false
        | _ => true
      let position ← Position.read_from
      let resolution ← Resolution.read_from
      pure (ClientMessage.FramebufferUpdateRequest ⟨incremental, position, resolution⟩)
  | 4 => do
      let pressed_flag ← read_u8
      let is_pressed := match pressed_flag with
        | 0 => false
        | _ => true
      let _ ← read_u16
      let keysym_raw ← read_u32
      match KeySym.try_from keysym_raw with
      | some keysym => pure (ClientMessage.KeyEvent ⟨is_pressed, keysym, keysym_raw⟩)
      | none => errf ("unrecognized keysym=" ++ toString keysym_raw)
  | 5 => do
      let pointer_event ← PointerEvent.read_from
      pure (ClientMessage.PointerEvent pointer_event)
  | 6 => do
      let _padding ← read_exact 3
      let len ← read_u32
      let buf := vec_with_capacity len
      let buf ← read_exact_into buf
      let text ← string_from_utf8 buf
      pure (ClientMessage.ClientCutText text)
  | unknown => errf ("unknown client message type: " ++ toString unknown)

/-- Reading a KeyEvent body reduces to the keysym lookup: after the flag,
padding and raw value are consumed, the message is a KeyEvent when the
mapping succeeds and an error when it does not. -/
theorem keyevent_read_reduces (b p1 p2 k1 k2 k3 k4 : Nat) (rest out : List Nat) :
    ClientMessage.read_from ⟨4 :: b :: p1 :: p2 :: k1 :: k2 :: k3 :: k4 :: rest, out⟩
      = (match KeySym.try_from ((k1 * 256 + k2) * 65536 + (k3 * 256 + k4)) with
         | some keysym =>
             (pure (ClientMessage.KeyEvent
               ⟨(match b with | 0 => false | _ => true), keysym,
                 (k1 * 256 + k2) * 65536 + (k3 * 256 + k4)⟩) : M ClientMessage)
         | none =>
             errf ("unrecognized keysym="
               ++ toString ((k1 * 256 + k2) * 65536 + (k3 * 256 + k4)))) ⟨rest, out⟩ := by
  rfl

/-- C4: decoding a ClientCutText never reads the payload: the buffer built
with Vec::with_capacity has length 0, so read_exact fills zero bytes and
the decoded text is always empty, with the N payload bytes left unread on
the stream.  At the failing input (length 1, payload byte 97) the decoded
text is empty instead of the 1-byte text the claim requires. -/
theorem C4_cuttext_payload_never_read :
    (∀ (p1 p2 p3 l1 l2 l3 l4 : Nat) (rest out : List Nat),
      ClientMessage.read_from ⟨6 :: p1 :: p2 :: p3 :: l1 :: l2 :: l3 :: l4 :: rest, out⟩
        = Res.ok (ClientMessage.ClientCutText []) ⟨rest, out⟩) ∧
    ClientMessage.read_from ⟨[6, 0, 0, 0, 0, 0, 0, 1, 97], []⟩
      = Res.ok (ClientMessage.ClientCutText []) ⟨[97], []⟩ ∧
    (List.length ([] : List Nat) = 0 ∧ (0 : Nat) ≠ 1) := by
  refine ⟨?_, rfl, rfl, by decide⟩
  intro p1 p2 p3 l1 l2 l3 l4 rest out
  rfl

/-- C10: decoding a KeyEvent fails with a connection-fatal error exactly
when the raw 32-bit keysym has no entry in the KeySym mapping; when the
mapping succeeds the KeyEvent carries the symbol and the raw value, and
the keysym_raw accessor returns exactly the value read from the wire. -/
theorem C10_keyevent_mapping :
    ∀ (b p1 p2 k1 k2 k3 k4 : Nat) (rest out : List Nat),
      (KeySym.try_from ((k1 * 256 + k2) * 65536 + (k3 * 256 + k4)) = Option.none →
        ClientMessage.read_from ⟨4 :: b :: p1 :: p2 :: k1 :: k2 :: k3 :: k4 :: rest, out⟩
          = Res.err ("unrecognized keysym="
              ++ toString ((k1 * 256 + k2) * 65536 + (k3 * 256 + k4))) ⟨rest, out⟩) ∧
      (∀ ks : KeySym,
        KeySym.try_from ((k1 * 256 + k2) * 65536 + (k3 * 256 + k4)) = some ks →
        ClientMessage.read_from ⟨4 :: b :: p1 :: p2 :: k1 :: k2 :: k3 :: k4 :: rest, out⟩
            = Res.ok (ClientMessage.KeyEvent
                ⟨(match b with | 0 => false | _ => true), ks,
                  (k1 * 256 + k2) * 65536 + (k3 * 256 + k4)⟩) ⟨rest, out⟩ ∧
          KeyEvent.keysym_raw
              ⟨(match b with | 0 => false | _ => true), ks,
                (k1 * 256 + k2) * 65536 + (k3 * 256 + k4)⟩
            = (k1 * 256 + k2) * 65536 + (k3 * 256 + k4)) := by
  intro b p1 p2 k1 k2 k3 k4 rest out
  refine ⟨?_, ?_⟩
  · intro h
    rw [keyevent_read_reduces, h]
    rfl
  · intro ks h
    rw [keyevent_read_reduces, h]
    exact ⟨rfl, rfl⟩

/-- C10 witness: the theorem applied at concrete wire bytes — keysym
4294967295 has no mapping and the decode errors; keysym 65 maps to Ascii
65 and the decoded KeyEvent carries symbol and raw value. -/
theorem C10_witness :
    ClientMessage.read_from ⟨[4, 1, 0, 0, 255, 255, 255, 255], []⟩
      = Res.err ("unrecognized keysym="
          ++ toString ((255 * 256 + 255) * 65536 + (255 * 256 + 255))) ⟨[], []⟩ ∧
    ClientMessage.read_from ⟨[4, 1, 0, 0, 0, 0, 0, 65], []⟩
      = Res.ok (ClientMessage.KeyEvent ⟨true, KeySym.Ascii 65, 65⟩) ⟨[], []⟩ ∧
    KeyEvent.keysym_raw ⟨true, KeySym.Ascii 65, 65⟩ = 65 := by
  refine ⟨?_, ?_, ?_⟩
  · exact (C10_keyevent_mapping 1 0 0 255 255 255 255 [] []).1 (by rfl)
  · exact ((C10_keyevent_mapping 1 0 0 0 0 0 65 [] []).2 (KeySym.Ascii 65) (by rfl)).1
  · exact ((C10_keyevent_mapping 1 0 0 0 0 0 65 [] []).2 (KeySym.Ascii 65) (by rfl)).2

/-- Modelled from the spec: byte offset of a channel with the given shift
inside a 4-byte RGB888 pixel, under the format's endianness. -/
def channel_offset (big_endian : Bool) (shift : Nat) : Nat :=
  if big_endian then 3 - shift / 8 else shift / 8

/-- Channel shifts of a pixel format (the transform is only invoked on
true-colour RGB888 formats; a ColorMap contributes zero shifts). -/
def PixelFormat.shifts (pf : PixelFormat) : Nat × Nat × Nat :=
  match pf.color_spec with
  | .ColorFormat cf => (cf.red_shift, cf.green_shift, cf.blue_shift)
  | .ColorMap _ => (0, 0, 0)

/-- Modelled from the spec: transform one 4-byte pixel — copy the red,
green and blue channel bytes from their input offsets to their output
offsets, leaving the unused byte untouched. -/
def transform_pixel (input_pf output_pf : PixelFormat) (px : List Nat) : List Nat :=
  let (ir, ig, ib) := input_pf.shifts
  let (outr, outg, outb) := output_pf.shifts
  let red := px.getD (channel_offset input_pf.big_endian ir) 0
  let green := px.getD (channel_offset input_pf.big_endian ig) 0
  let blue := px.getD (channel_offset input_pf.big_endian ib) 0
  ((px.set (channel_offset output_pf.big_endian outr) red).set
      (channel_offset output_pf.big_endian outg) green).set
    (channel_offset output_pf.big_endian outb) blue

/-- Modelled from the spec: transform a raw pixel buffer 4 bytes at a
time; a trailing fragment shorter than one pixel passes through. -/
def transform_raw (input_pf output_pf : PixelFormat) : List Nat → List Nat
  | a :: b :: c :: d :: rest =>
      transform_pixel input_pf output_pf [a, b, c, d]
        ++ transform_raw input_pf output_pf rest
  | l => l

/-- Modelled from the spec: the Encoding capability (`crate::encodings`,
whose file is not under src/); Raw is the only implemented variant and
carries the raw pixel bytes of one rectangle. -/
inductive Encoding where
  | Raw (data : List Nat)
deriving DecidableEq, Repr

/-- Encoding::get_type: the encoding's wire discriminant. -/
def Encoding.get_type : Encoding → EncodingType
  | .Raw _ => .Raw

/-- The signed 32-bit wire value of an EncodingType (Raw is 0). -/
def EncodingType.toI32 : EncodingType → Int
  | .Raw => 0

/-- Encoding::encode: serialize the payload with no added header. -/
def Encoding.encode : Encoding → List Nat
  | .Raw data => data

/-- Encoding::transform: re-express the payload under the output format,
returning a new instance of the same variant. -/
def Encoding.transform (e : Encoding) (input_pf output_pf : PixelFormat) : Encoding :=
  match e with
  | .Raw data => .Raw (transform_raw input_pf output_pf data)

/-- The `Rectangle` struct (`src/rfb.rs`). -/
structure Rectangle where
  position : Position
  dimensions : Resolution
  data : Encoding
deriving DecidableEq, Repr

/-- Rectangle::transform: keep position and dimensions, transform the
payload. -/
def Rectangle.transform (r : Rectangle) (input_pf output_pf : PixelFormat) : Rectangle :=
  ⟨r.position, r.dimensions, r.data.transform input_pf output_pf⟩

/-- Rectangle::write_to: 2-byte x, y, width, height, the 4-byte signed
encoding type, then the encoded payload bytes. -/
def Rectangle.write_to (r : Rectangle) : List Nat :=
  be16 r.position.x ++ be16 r.position.y
    ++ be16 r.dimensions.width ++ be16 r.dimensions.height
    ++ i32be r.data.get_type.toI32
    ++ r.data.encode

/-- The `FramebufferUpdate` struct (`src/rfb.rs`). -/
structure FramebufferUpdate where
  rectangles : List Rectangle
deriving DecidableEq, Repr

/-- FramebufferUpdate::transform: transform each rectangle in order. -/
def FramebufferUpdate.transform (f : FramebufferUpdate)
    (input_pf output_pf : PixelFormat) : FramebufferUpdate :=
  ⟨f.rectangles.map (fun r => r.transform input_pf output_pf)⟩

/-- FramebufferUpdate::write_to: type byte 0, one pad byte, the rectangle
count written as `rectangles.len() as u16` (a truncating cast), then each
rectangle in order. -/
def FramebufferUpdate.write_to (f : FramebufferUpdate) : List Nat :=
  u8be 0 ++ u8be 0 ++ be16 (f.rectangles.length % 65536)
    ++ (f.rectangles.map Rectangle.write_to).flatten

/-- The `ServerState` struct (`src/server.rs`): per-session mutable state. -/
structure ServerState where
  width : Nat
  height : Nat
  input_format : PixelFormat
  output_format : PixelFormat
deriving DecidableEq, Repr

/-- The transform guard in Server::process: formats differ and both are
RGB888. -/
def should_transform (s : ServerState) : Bool :=
  s.input_format != s.output_format
    && s.input_format.is_rgb_888 && s.output_format.is_rgb_888

/-- One dispatch step of Server::process on a decoded client message;
`updatef` is the FramebufferUpdate returned by the external producer
callback when the message is a FramebufferUpdateRequest.  SetPixelFormat
stores the new output format; the update-request arm optionally transforms
the update and writes it; all other arms only log. -/
def process_msg (state : ServerState) (updatef : FramebufferUpdate) :
    ClientMessage → M ServerState
  | .SetPixelFormat pf => pure { state with output_format := pf }
  | .SetEncodings _ => pure state
  | .FramebufferUpdateRequest _ => do
      let fbu := updatef
      let fbu :=
        if should_transform state then
          fbu.transform state.input_format state.output_format
        else
          -- the source's else-if branch only logs that no transform
          -- between non-RGB888 formats is attempted
          fbu
      emit fbu.write_to
      pure state
  | .KeyEvent _ => pure state
  | .PointerEvent _ => pure state
  | .ClientCutText _ => pure state

/-- One iteration of the Server::process loop: decode the next client
message from the stream and dispatch it. -/
def process1 (state : ServerState) (updatef : FramebufferUpdate) : M ServerState := do
  let msg ← ClientMessage.read_from
  process_msg state updatef msg

/-- Servicing a FramebufferUpdateRequest writes the serialization of the
transformed update when the guard holds and of the original update
otherwise, and leaves the session state untouched. -/
theorem process_fbu_eq (s : ServerState) (u : FramebufferUpdate)
    (f : FramebufferUpdateRequest) (c : Conn) :
    process_msg s u (.FramebufferUpdateRequest f) c
      = Res.ok s ⟨c.input, c.output
          ++ (if should_transform s then
                (u.transform s.input_format s.output_format).write_to
              else u.write_to)⟩ := by
  cases hc : should_transform s with
  | true => simp only [process_msg, hc]; rfl
  | false => simp only [process_msg, hc]; rfl

/-- C7: the update produced for a FramebufferUpdateRequest is replaced by
its transformed equivalent exactly when input and output formats differ
and both are RGB888; in every other case the update is serialized
byte-for-byte unmodified. -/
theorem C7_fbu_transform_guard :
    ∀ (s : ServerState) (u : FramebufferUpdate) (f : FramebufferUpdateRequest) (c : Conn),
      (s.input_format ≠ s.output_format → s.input_format.is_rgb_888 = true →
        s.output_format.is_rgb_888 = true →
        process_msg s u (.FramebufferUpdateRequest f) c
          = Res.ok s ⟨c.input, c.output
              ++ (u.transform s.input_format s.output_format).write_to⟩) ∧
      ((s.input_format = s.output_format ∨ s.input_format.is_rgb_888 = false ∨
          s.output_format.is_rgb_888 = false) →
        process_msg s u (.FramebufferUpdateRequest f) c
          = Res.ok s ⟨c.input, c.output ++ u.write_to⟩) := by
  intro s u f c
  refine ⟨?_, ?_⟩
  · intro h1 h2 h3
    rw [process_fbu_eq]
    have hb : should_transform s = true := by
      simp [should_transform, bne_iff_ne, h1, h2, h3]
    rw [hb]
    simp
  · intro h
    rw [process_fbu_eq]
    have hb : should_transform s = false := by
      rcases h with h | h | h
      · simp [should_transform, h]
      · simp [should_transform, h]
      · simp [should_transform, h]
    rw [hb]
    simp

/-- C7 witness: a session whose input format stores red at shift 0 and
whose output format stores red at shift 16 (both RGB888) transforms a
one-pixel update; a session with equal formats passes the same update
through byte-for-byte. -/
theorem C7_witness :
    (process_msg
        ⟨640, 480, ⟨32, 24, false, .ColorFormat ⟨255, 255, 255, 0, 8, 16⟩⟩,
          ⟨32, 24, false, .ColorFormat ⟨255, 255, 255, 16, 8, 0⟩⟩⟩
        ⟨[⟨⟨0, 0⟩, ⟨1, 1⟩, .Raw [170, 187, 204, 221]⟩]⟩
        (.FramebufferUpdateRequest ⟨false, ⟨0, 0⟩, ⟨1, 1⟩⟩) ⟨[], []⟩
      = Res.ok
          ⟨640, 480, ⟨32, 24, false, .ColorFormat ⟨255, 255, 255, 0, 8, 16⟩⟩,
            ⟨32, 24, false, .ColorFormat ⟨255, 255, 255, 16, 8, 0⟩⟩⟩
          ⟨[], [] ++ (FramebufferUpdate.transform
              ⟨[⟨⟨0, 0⟩, ⟨1, 1⟩, .Raw [170, 187, 204, 221]⟩]⟩
              ⟨32, 24, false, .ColorFormat ⟨255, 255, 255, 0, 8, 16⟩⟩
              ⟨32, 24, false, .ColorFormat ⟨255, 255, 255, 16, 8, 0⟩⟩).write_to⟩) ∧
    (process_msg
        ⟨640, 480, ⟨32, 24, false, .ColorFormat ⟨255, 255, 255, 0, 8, 16⟩⟩,
          ⟨32, 24, false, .ColorFormat ⟨255, 255, 255, 0, 8, 16⟩⟩⟩
        ⟨[⟨⟨0, 0⟩, ⟨1, 1⟩, .Raw [170, 187, 204, 221]⟩]⟩
        (.FramebufferUpdateRequest ⟨false, ⟨0, 0⟩, ⟨1, 1⟩⟩) ⟨[], []⟩
      = Res.ok
          ⟨640, 480, ⟨32, 24, false, .ColorFormat ⟨255, 255, 255, 0, 8, 16⟩⟩,
            ⟨32, 24, false, .ColorFormat ⟨255, 255, 255, 0, 8, 16⟩⟩⟩
          ⟨[], [] ++ (FramebufferUpdate.write_to
              ⟨[⟨⟨0, 0⟩, ⟨1, 1⟩, .Raw [170, 187, 204, 221]⟩]⟩)⟩) := by
  refine ⟨?_, ?_⟩
  · exact (C7_fbu_transform_guard _ _ _ _).1 (by decide) (by decide) (by decide)
  · exact (C7_fbu_transform_guard _ _ _ _).2 (Or.inl rfl)

/-- C8: handling SetPixelFormat replaces only the session state's
output_format, keeping width, height and input_format; handling every
other client message returns the state with all four fields unchanged
(the update-request arm additionally writes bytes to the stream). -/
theorem C8_session_state_effects :
    ∀ (s : ServerState) (u : FramebufferUpdate) (c : Conn),
      (∀ pf : PixelFormat,
        process_msg s u (.SetPixelFormat pf) c
          = Res.ok ⟨s.width, s.height, s.input_format, pf⟩ c) ∧
      (∀ es : List EncodingType, process_msg s u (.SetEncodings es) c = Res.ok s c) ∧
      (∀ ke : KeyEvent, process_msg s u (.KeyEvent ke) c = Res.ok s c) ∧
      (∀ pe : PointerEvent, process_msg s u (.PointerEvent pe) c = Res.ok s c) ∧
      (∀ t : List Nat, process_msg s u (.ClientCutText t) c = Res.ok s c) ∧
      (∀ f : FramebufferUpdateRequest, ∃ extra : List Nat,
        process_msg s u (.FramebufferUpdateRequest f) c
          = Res.ok s ⟨c.input, c.output ++ extra⟩) := by
  intro s u c
  refine ⟨fun pf => rfl, fun es => rfl, fun ke => rfl, fun pe => rfl, fun t => rfl, ?_⟩
  intro f
  exact ⟨_, process_fbu_eq s u f c⟩

/-- The first four serialized bytes of any update: type byte, pad byte,
and the two big-endian bytes of the truncated rectangle count. -/
theorem fbu_write_take4 (rs : List Rectangle) :
    (FramebufferUpdate.write_to ⟨rs⟩).take 4
      = [0, 0, rs.length % 65536 / 256 % 256, rs.length % 65536 % 256] := by
  rfl

/-- C9 counterexample: an update with 65536 rectangles serializes with
count field bytes 0, 0 — the count 0, not the number of rectangles —
because the length is cast to u16. -/
theorem C9_counterexample_rect_count_truncated :
    (FramebufferUpdate.write_to
        ⟨List.replicate 65536 ⟨⟨0, 0⟩, ⟨0, 0⟩, .Raw []⟩⟩).take 4 = [0, 0, 0, 0] ∧
    (FramebufferUpdate.rectangles
        ⟨List.replicate 65536 ⟨⟨0, 0⟩, ⟨0, 0⟩, .Raw []⟩⟩).length = 65536 ∧
    256 * 0 + 0 ≠ 65536 := by
  refine ⟨?_, List.length_replicate _ _, by decide⟩
  rw [fbu_write_take4, List.length_replicate]

/-- C9 amended: a FramebufferUpdate serializes as type byte 0, one pad
byte, the 2-byte big-endian rectangle count equal to the number of
rectangles reduced modulo 65536 (the u16 cast; exact whenever there are
fewer than 65536 rectangles), then each rectangle as 2-byte x, y, width,
height, the 4-byte signed big-endian encoding type, and the payload bytes
with no added header. -/
theorem C9_fbu_serialization_layout :
    (∀ f : FramebufferUpdate,
      f.write_to = 0 :: 0 :: be16 (f.rectangles.length % 65536)
        ++ (f.rectangles.map Rectangle.write_to).flatten) ∧
    (∀ r : Rectangle,
      r.write_to = be16 r.position.x ++ be16 r.position.y
        ++ be16 r.dimensions.width ++ be16 r.dimensions.height
        ++ i32be r.data.get_type.toI32 ++ r.data.encode) ∧
    (∀ (x y w h : Nat) (data : List Nat),
      FramebufferUpdate.write_to ⟨[⟨⟨x, y⟩, ⟨w, h⟩, .Raw data⟩]⟩
        = [0, 0, 0, 1] ++ be16 x ++ be16 y ++ be16 w ++ be16 h
            ++ [0, 0, 0, 0] ++ data) := by
  refine ⟨fun f => rfl, fun r => rfl, ?_⟩
  intro x y w h data
  simp [FramebufferUpdate.write_to, Rectangle.write_to, u8be, be16, i32be, be32,
    Encoding.get_type, EncodingType.toI32, Encoding.encode]

end Rfb
